import Mathlib

/-!
# A shallow embedding of the `tcp-over-udp` file-transfer protocol

This development embeds the protocol logic of `src/sender.c`, `src/receiver.c`
and `src/include/udp.h` (a stop-and-wait ARQ file transfer over UDP) and
proves or refutes the specification's claims about it.

Conventions of the embedding:
* C machine integers are modelled as `Nat`; where a `uint32_t` assignment can
  wrap, the reduction `% 2^32` is written explicitly (`UINT32_MOD`).
* Byte buffers are `List Nat`.
* The fallible ack check (`checkAck`, which can terminate the process via
  `exit(1)`) returns `Option`: `none` models the fatal abort.
* The data-transfer loops of `rsend`/`rrecv` are modelled for an in-order,
  loss-free network: each iteration of the sender's loop reads a chunk, sends
  one datagram and receives the matching data-ack, so `retries` stays `0` and
  `totalBytesSent` grows by `MAX_BUFFER_SIZE` per iteration, exactly as in the
  C code.  The sender loop is written with a fuel argument (the loop runs
  `⌈target / MAX_BUFFER_SIZE⌉ ≤ target` times, so fuel `target` suffices) to
  keep every definition computable by the kernel.
-/

namespace TcpOverUdp

/-- `MAX_BUFFER_SIZE` from `udp.h`: maximum payload bytes per data packet. -/
def MAX_BUFFER_SIZE : Nat := 8192

/-- `DEFAULT_TIMEOUT` from `udp.h` (microseconds, used for `tv_usec`). -/
def DEFAULT_TIMEOUT : Nat := 100000

/-- `MAX_RETRIES` from `udp.h`. -/
def MAX_RETRIES : Nat := 3

/-- `SYN_ACK_DEFAULT_TIMEOUT_MILLISEC` from `udp.h`. -/
def SYN_ACK_DEFAULT_TIMEOUT_MILLISEC : Nat := 100000

/-- `SYN_ACK_MAX_TIMEOUT_MILLISEC` from `udp.h`. -/
def SYN_ACK_MAX_TIMEOUT_MILLISEC : Nat := 1600

/-- `HEADER_SIZE` is `sizeof(struct Header)`: two `uint32_t` fields plus a
`u_char` flag, padded to 4-byte alignment on the usual ABIs. -/
def HEADER_SIZE : Nat := 12

/-- Modulus of `uint32_t` arithmetic (`2 ^ 32`). -/
def UINT32_MOD : Nat := 4294967296

/-- `struct Header` from `udp.h`. -/
structure Header where
  sequenceNumber : Nat
  messageLength : Nat
  lastPacket : Bool
deriving DecidableEq, Repr

/-! ## Handshake (establish_connection in sender.c and receiver.c)

Only the sequence-number arithmetic of the three-way handshake is needed by
the claims: the `ackNumber` the sender puts into its final Ack
(`sender.c:127`), the `ackNumber` the receiver stores in its SynAck
(`receiver.c:118`), and the receiver's acceptance test for the final Ack
(`receiver.c:134`). -/

/-- `ack.ackNumber = syn_ack.sequenceNumber + 1` (`sender.c:127`),
as a `uint32_t`. -/
def senderHandshakeAck (synAckSeq : Nat) : Nat :=
  (synAckSeq + 1) % UINT32_MOD

/-- `syn_ack.ackNumber = syn.sequenceNumber + 1` (`receiver.c:118`),
as a `uint32_t`. -/
def receiverSynAckAckNumber (synSeq : Nat) : Nat :=
  (synSeq + 1) % UINT32_MOD

/-- The receiver's acceptance test for the final handshake Ack:
`ack.ackNumber == syn_ack.ackNumber` (`receiver.c:134`). -/
def receiverAcceptsAck (synSeq ackNum : Nat) : Bool :=
  ackNum == receiverSynAckAckNumber synSeq

/-- The handshake timeout update used by both sides on a receive timeout
(`sender.c:139-142`, `receiver.c:148-151`, `receiver.c:169-172`):
`if (timeout < SYN_ACK_MAX_TIMEOUT_MILLISEC) timeout *= 2;`. -/
def handshakeBackoff (timeout : Nat) : Nat :=
  if timeout < SYN_ACK_MAX_TIMEOUT_MILLISEC then timeout * 2 else timeout

/-! ## The data-phase retry controller (`checkAck`, sender.c:173-220) -/

/-- The two observable outcomes of the sender's `recvfrom` for a data-ack:
a receive timeout (`EAGAIN`/`EWOULDBLOCK`), or an ack datagram carrying a
sequence number.  (A hard socket error immediately exits and is not a
protocol event.) -/
inductive AckEvent where
  | timeout : AckEvent
  | ack : Nat → AckEvent
deriving DecidableEq, Repr

/-- The sender-side state threaded through `checkAck` by pointer in C. -/
structure SenderState where
  sequenceNumber : Nat
  totalBytesSent : Nat
  timeout : Nat
  retries : Nat
deriving DecidableEq, Repr

/-- `checkAck` (sender.c:173-220).  `none` models the fatal
`exit(1)` on `"max timeout reached"`; `some st` is the state left in the
sender's variables when `checkAck` returns.

* On a receive timeout: if `retries < MAX_RETRIES`, double the timeout and
  increment `retries`; otherwise abort (`sender.c:183-196`).
* On an ack whose sequence number differs from the outstanding one: double
  the timeout and increment `retries`, with **no** ceiling check
  (`sender.c:208-213`).
* On a matching ack: add `bytesSentThisTime - HEADER_SIZE` to
  `totalBytesSent`, advance the sequence number, reset `retries` and the
  timeout (`sender.c:215-219`). -/
def checkAck (ev : AckEvent) (bytesSentThisTime : Nat) (st : SenderState) :
    Option SenderState :=
  match ev with
  | .timeout =>
      if st.retries < MAX_RETRIES then
        some { st with timeout := st.timeout * 2, retries := st.retries + 1 }
      else
        none
  | .ack n =>
      if n ≠ st.sequenceNumber then
        some { st with timeout := st.timeout * 2, retries := st.retries + 1 }
      else
        some { sequenceNumber := st.sequenceNumber + 1,
               totalBytesSent :=
                 st.totalBytesSent + (bytesSentThisTime - HEADER_SIZE),
               timeout := DEFAULT_TIMEOUT,
               retries := 0 }

/-- Iterated `checkAck` over a list of ack events; a fatal abort (`none`)
is absorbing, as the process has exited. -/
def checkAckRun (evs : List AckEvent) (bytesSentThisTime : Nat)
    (st : SenderState) : Option SenderState :=
  evs.foldl (fun o ev => o.bind (checkAck ev bytesSentThisTime)) (some st)

/-! ## The sender's data loop (`rsend`, sender.c:241-340)

One iteration of the loop with `retries == 0` (the loss-free run keeps
`retries` at `0` forever):

* `fread` reads up to `MAX_BUFFER_SIZE` bytes from the file
  (`sender.c:305`) — note the read is capped by the *file*, never by the
  remaining transfer target;
* the chunk is `memcpy`ed over the front of the persistent `packet` buffer,
  whose tail keeps its previous (stale) contents (`sender.c:312`);
* the header gets the current sequence number (a `uint32_t` field assigned
  from the `int` counter), `messageLength = bytesRead`, and
  `lastPacket = (totalBytesSent + MAX_BUFFER_SIZE > bytesToTransfer)`
  (`sender.c:314-323`);
* `sendto` always transmits `HEADER_SIZE + MAX_BUFFER_SIZE` bytes
  (`sender.c:328`), so on a matching ack `checkAck` adds exactly
  `MAX_BUFFER_SIZE` to `totalBytesSent` and the loop condition
  `totalBytesSent < bytesToTransfer` is re-checked.

The loop is phrased on `remaining = bytesToTransfer - totalBytesSent`; the
emitted list pairs each packet's header with the full `MAX_BUFFER_SIZE`-byte
payload region of the datagram (the fresh chunk followed by the stale tail of
the send buffer). -/
def senderLoop : Nat → List Nat → Nat → Nat → List Nat →
    List (Header × List Nat)
  | 0, _, _, _, _ => []
  | fuel + 1, rest, remaining, seq, buf =>
    if remaining = 0 then []
    else
      let chunk := rest.take MAX_BUFFER_SIZE
      let buf' := chunk ++ buf.drop chunk.length
      let h : Header :=
        { sequenceNumber := seq % UINT32_MOD,
          messageLength := chunk.length,
          lastPacket := decide (remaining < MAX_BUFFER_SIZE) }
      (h, buf') ::
        senderLoop fuel (rest.drop MAX_BUFFER_SIZE)
          (remaining - MAX_BUFFER_SIZE) (seq + 1) buf'

/-- The sequence of data packets `rsend` hands to the transport on a
loss-free run: `bytesToTransfer` is first capped at the file size
(`sender.c:274-277`), the sequence number starts at the handshake value
`_sequenceNumber` (`sender.c:113-114`), and `buf0` is the initial
(uninitialized) contents of the `packet` buffer (`sender.c:284`). -/
def rsendPackets (file : List Nat) (bytesToTransfer : Nat) (seq0 : Nat)
    (buf0 : List Nat) : List (Header × List Nat) :=
  senderLoop (min bytesToTransfer file.length) file
    (min bytesToTransfer file.length) seq0 buf0

/-! ## The receiver's data loop (`rrecv`, receiver.c:206-301) -/

/-- The receiver-side state: `_latestSequenceNumber` (receiver.c:43), the
bytes written to the destination file, the data-acks sent, and whether the
loop has exited (`break` on a written `lastPacket`, receiver.c:279-282). -/
structure RecvState where
  latestSequenceNumber : Nat
  output : List Nat
  acks : List Nat
  done : Bool
deriving DecidableEq, Repr

/-- The receiver's initial state: `_latestSequenceNumber` is initialized to
the constant `0` (receiver.c:43), not to any handshake-negotiated value. -/
def rrecvInit : RecvState :=
  { latestSequenceNumber := 0, output := [], acks := [], done := false }

/-- One iteration of the `rrecv` loop on a delivered data packet
(receiver.c:248-297).  If the loop has already exited, nothing happens.
Otherwise:

* a data-ack carrying the packet's sequence number is sent unconditionally,
  before the duplicate check (receiver.c:266);
* if `header.sequenceNumber <= _latestSequenceNumber` the payload is
  discarded (receiver.c:272-275);
* otherwise the first `messageLength` bytes of the payload region are
  written (receiver.c:268-277); if `lastPacket` is set the loop breaks
  before updating `_latestSequenceNumber` (receiver.c:279-282), and
  otherwise `_latestSequenceNumber` is updated (receiver.c:285). -/
def rrecvStep (st : RecvState) (pkt : Header × List Nat) : RecvState :=
  if st.done then st
  else
    let h := pkt.1
    let st1 := { st with acks := st.acks ++ [h.sequenceNumber] }
    if h.sequenceNumber ≤ st1.latestSequenceNumber then st1
    else
      let st2 := { st1 with output := st1.output ++ pkt.2.take h.messageLength }
      if h.lastPacket then { st2 with done := true }
      else { st2 with latestSequenceNumber := h.sequenceNumber }

/-- Run the receiver loop from a given state over a list of delivered
packets. -/
def rrecvRunFrom (st : RecvState) (pkts : List (Header × List Nat)) :
    RecvState :=
  pkts.foldl rrecvStep st

/-- Run the receiver loop from its initial state. -/
def rrecvRun (pkts : List (Header × List Nat)) : RecvState :=
  rrecvRunFrom rrecvInit pkts

/-- The branch structure of the receiver's datagram handling
(receiver.c:253-262): a negative `recvfrom` result is fatal, a zero-length
datagram is skipped, and any positive-length datagram — however short —
is processed as a packet (its header is `memcpy`ed from the buffer with no
length validation, receiver.c:264-265). -/
inductive RecvAction where
  | fatalExit : RecvAction
  | skipDatagram : RecvAction
  | processPacket : RecvAction
deriving DecidableEq, Repr

/-- Classify a `recvfrom` result as the receiver does (receiver.c:253-262). -/
def classifyRecv (bytesReceived : Int) : RecvAction :=
  if bytesReceived < 0 then .fatalExit
  else if bytesReceived = 0 then .skipDatagram
  else .processPacket

/-- Default element used when indexing into a packet list. -/
def defaultPacket : Header × List Nat := (⟨0, 0, false⟩, [])

/-! ## Basic unfolding lemmas -/

/-- The receiver run does nothing on an empty delivery list. -/
theorem rrecvRunFrom_nil (st : RecvState) : rrecvRunFrom st [] = st := rfl

/-- The receiver run processes the head packet first. -/
theorem rrecvRunFrom_cons (st : RecvState) (a : Header × List Nat)
    (l : List (Header × List Nat)) :
    rrecvRunFrom st (a :: l) = rrecvRunFrom (rrecvStep st a) l := rfl

/-- With `remaining = 0` the sender's loop condition
`totalBytesSent < bytesToTransfer` fails and no packet is emitted. -/
theorem senderLoop_zero_remaining (fuel : Nat) (rest : List Nat) (seq : Nat)
    (buf : List Nat) : senderLoop fuel rest 0 seq buf = [] := by
  cases fuel <;> simp [senderLoop]

/-- A fresh packet (sequence number above the receiver's current
high-water mark, receiver not yet finished) is acknowledged and its first
`messageLength` payload bytes are written; the `lastPacket` flag decides
whether the loop breaks or the high-water mark advances. -/
theorem rrecvStep_fresh (st : RecvState) (h : Header) (p : List Nat)
    (hd : st.done = false) (hs : st.latestSequenceNumber < h.sequenceNumber) :
    rrecvStep st (h, p) =
      if h.lastPacket then
        { latestSequenceNumber := st.latestSequenceNumber,
          output := st.output ++ p.take h.messageLength,
          acks := st.acks ++ [h.sequenceNumber], done := true }
      else
        { latestSequenceNumber := h.sequenceNumber,
          output := st.output ++ p.take h.messageLength,
          acks := st.acks ++ [h.sequenceNumber], done := false } := by
  by_cases hl : h.lastPacket <;>
    simp [rrecvStep, hd, hl, Nat.not_le.mpr hs]

/-- A stale packet (sequence number at or below the high-water mark) is
acknowledged and otherwise ignored. -/
theorem rrecvStep_stale (st : RecvState) (h : Header) (p : List Nat)
    (hd : st.done = false) (hs : h.sequenceNumber ≤ st.latestSequenceNumber) :
    rrecvStep st (h, p) =
      { st with acks := st.acks ++ [h.sequenceNumber] } := by
  simp [rrecvStep, hd, hs]

/-! ## Claim C2: handshake convergence -/

/-- C2: the responder's acceptance test for the final handshake Ack fails
whenever the two initial sequence numbers differ.  The initiator sends
`ackNumber = SynAck.sequenceNumber + 1` (sender.c:127) but the responder
compares against `syn_ack.ackNumber = Syn.sequenceNumber + 1`
(receiver.c:118,134), so the handshake Ack is rejected and the responder
never leaves its SynAck resend loop: the handshake cannot reach
`Established` on both sides for distinct initial sequence numbers. -/
theorem handshake_ack_rejected (synSeq synAckSeq : Nat)
    (h1 : synSeq < UINT32_MOD) (h2 : synAckSeq < UINT32_MOD)
    (hne : synSeq ≠ synAckSeq) :
    receiverAcceptsAck synSeq (senderHandshakeAck synAckSeq) = false := by
  unfold receiverAcceptsAck senderHandshakeAck receiverSynAckAckNumber
  unfold UINT32_MOD at h1 h2 ⊢
  simp only [beq_eq_false_iff_ne, ne_eq]
  omega

/-- C2 witness: with `Syn.sequenceNumber = 5` and
`SynAck.sequenceNumber = 7`, the initiator's Ack (carrying 8) is rejected
by the responder (which expects 6). -/
theorem handshake_ack_rejected_witness :
    (5 : Nat) ≠ 7 ∧ receiverAcceptsAck 5 (senderHandshakeAck 7) = false :=
  ⟨by decide, handshake_ack_rejected 5 7 (by decide) (by decide) (by decide)⟩

/-! ## Claim C4: retry ceiling enforcement -/

/-- C4 counterexample: four consecutive transient failures that are all
mismatched acks do not abort the sender.  Starting from a fresh state
(`retries = 0`), four acks carrying the wrong sequence number leave the
sender alive with `retries = 4 > MAX_RETRIES`, because the mismatched-ack
path of `checkAck` (sender.c:208-213) has no ceiling check. -/
theorem mismatched_acks_do_not_abort :
    checkAckRun [.ack 99, .ack 99, .ack 99, .ack 99]
        (HEADER_SIZE + MAX_BUFFER_SIZE) ⟨5, 0, 100000, 0⟩ =
      some ⟨5, 0, 1600000, 4⟩ ∧
    MAX_RETRIES < 4 := by
  decide

/-- C4 (amended): after `MAX_RETRIES + 1` consecutive timeout failures the
sender aborts fatally, but a mismatched ack merely doubles the timeout and
increments the retry counter and never itself aborts, so the counter can
exceed `MAX_RETRIES` without an abort. -/
theorem retry_ceiling_on_timeouts (st : SenderState) (b : Nat)
    (h : st.retries = 0) :
    checkAckRun [.timeout, .timeout, .timeout, .timeout] b st = none ∧
    ∀ (st' : SenderState) (n b' : Nat), n ≠ st'.sequenceNumber →
      checkAck (.ack n) b' st' ≠ none := by
  constructor
  · simp [checkAckRun, checkAck, h, MAX_RETRIES]
  · intro st' n b' hn
    simp [checkAck, hn]

/-- C4 witness: the abort after four timeouts and the non-abort on a
mismatched ack, at a concrete sender state. -/
theorem retry_ceiling_on_timeouts_witness :
    checkAckRun [.timeout, .timeout, .timeout, .timeout] 0
        ⟨0, 0, 100000, 0⟩ = none ∧
    checkAck (.ack 1) 0 ⟨0, 0, 100000, 0⟩ ≠ none :=
  ⟨(retry_ceiling_on_timeouts ⟨0, 0, 100000, 0⟩ 0 rfl).1,
   (retry_ceiling_on_timeouts ⟨0, 0, 100000, 0⟩ 0 rfl).2
     ⟨0, 0, 100000, 0⟩ 1 0 (by decide)⟩

/-! ## Claim C6: zero-length transfer -/

/-- C6: with a transfer target of 0 bytes the sender's loop condition
`totalBytesSent < bytesToTransfer` (sender.c:293) is false from the start,
so the sender emits no data packet at all — not the single empty
`lastPacket` the specification claims — and the receiver, which only stops
after writing a packet flagged `lastPacket`, is never released from its
loop; it writes nothing. -/
theorem zero_target_sends_no_packets (file : List Nat) (seq0 : Nat)
    (buf0 : List Nat) :
    rsendPackets file 0 seq0 buf0 = [] ∧
    (rrecvRun (rsendPackets file 0 seq0 buf0)).output = [] ∧
    (rrecvRun (rsendPackets file 0 seq0 buf0)).done = false := by
  have h : rsendPackets file 0 seq0 buf0 = [] := by
    unfold rsendPackets
    rw [Nat.zero_min]
    rfl
  refine ⟨h, ?_, ?_⟩ <;> rw [h] <;> rfl

/-! ## Claim C7: handshake backoff rule -/

/-- C7 counterexample: the handshake backoff is not
`timeout = min(timeout * 2, SYN_ACK_MAX_TIMEOUT)`.  Starting from the
default 100000, one timeout leaves the value at 100000, while the claimed
rule would give `min(200000, 1600) = 1600`; moreover the timeout exceeds
the 1600 ceiling from the very start. -/
theorem handshakeBackoff_not_min_rule :
    handshakeBackoff SYN_ACK_DEFAULT_TIMEOUT_MILLISEC = 100000 ∧
    min (SYN_ACK_DEFAULT_TIMEOUT_MILLISEC * 2) SYN_ACK_MAX_TIMEOUT_MILLISEC
      = 1600 ∧
    (100000 : Nat) ≠ 1600 ∧
    ¬ SYN_ACK_DEFAULT_TIMEOUT_MILLISEC ≤ SYN_ACK_MAX_TIMEOUT_MILLISEC := by
  decide

/-- C7 (amended): the code doubles the handshake timeout only when it is
still below `SYN_ACK_MAX_TIMEOUT_MILLISEC`; since the starting value
100000 already exceeds the 1600 ceiling, the timeout never changes — after
any number of receive timeouts it is still the default — and any value at
or above the ceiling is a fixed point of the backoff. -/
theorem handshakeBackoff_stays_at_default :
    (∀ n : Nat, handshakeBackoff^[n] SYN_ACK_DEFAULT_TIMEOUT_MILLISEC =
      SYN_ACK_DEFAULT_TIMEOUT_MILLISEC) ∧
    ∀ t : Nat, SYN_ACK_MAX_TIMEOUT_MILLISEC ≤ t → handshakeBackoff t = t := by
  constructor
  · intro n
    induction n with
    | zero => rfl
    | succ n ih => rw [Function.iterate_succ_apply', ih]; decide
  · intro t ht
    unfold handshakeBackoff
    rw [if_neg (Nat.not_lt.mpr ht)]

/-- C7 witness: five consecutive handshake timeouts leave the timeout at
the default, and 2000 (above the ceiling) is a fixed point. -/
theorem handshakeBackoff_stays_at_default_witness :
    handshakeBackoff^[5] SYN_ACK_DEFAULT_TIMEOUT_MILLISEC =
      SYN_ACK_DEFAULT_TIMEOUT_MILLISEC ∧
    handshakeBackoff 2000 = 2000 :=
  ⟨handshakeBackoff_stays_at_default.1 5,
   handshakeBackoff_stays_at_default.2 2000 (by decide)⟩

/-! ## Claim C8: short datagrams -/

/-- C8 counterexample: a 1-byte datagram — shorter than the fixed header —
is not rejected: the receiver takes the `processPacket` path and
`memcpy`s a full header out of the buffer (receiver.c:264-265), so the
short buffer is silently interpreted rather than causing a fatal abort. -/
theorem short_datagram_processed :
    classifyRecv 1 = RecvAction.processPacket ∧
    (1 : Int) < (HEADER_SIZE : Int) ∧
    RecvAction.processPacket ≠ RecvAction.fatalExit := by
  refine ⟨rfl, by norm_num [HEADER_SIZE], by decide⟩

/-- C8 (amended): the receiver validates only the sign of the `recvfrom`
result: every positive-length datagram, however short, is processed as a
packet, and only a negative result is fatal (a zero-length datagram is
skipped). -/
theorem positive_datagram_always_processed :
    (∀ n : Int, 0 < n → classifyRecv n = RecvAction.processPacket) ∧
    ∀ n : Int, n < 0 → classifyRecv n = RecvAction.fatalExit := by
  constructor
  · intro n hn
    unfold classifyRecv
    rw [if_neg (by omega), if_neg (by omega)]
  · intro n hn
    unfold classifyRecv
    rw [if_pos hn]

/-- C8 witness: a 1-byte datagram is processed; a receive error is fatal. -/
theorem positive_datagram_always_processed_witness :
    classifyRecv 1 = RecvAction.processPacket ∧
    classifyRecv (-1) = RecvAction.fatalExit :=
  ⟨positive_datagram_always_processed.1 1 (by decide),
   positive_datagram_always_processed.2 (-1) (by decide)⟩

/-! ## Claim C10: sequence number 0 is never written -/

/-- C10: the receiver initializes `_latestSequenceNumber` to the constant 0
(receiver.c:43), not to the handshake-negotiated value, and for any data
packet whose sequence number is 0 (the sender's initial sequence number is
an unconstrained `rand()` value, sender.c:113-114, so 0 is possible) the
duplicate test `header.sequenceNumber <= _latestSequenceNumber` always
holds: the packet is acknowledged but its payload is never written and the
high-water mark is unchanged. -/
theorem seq_zero_acked_never_written :
    rrecvInit.latestSequenceNumber = 0 ∧
    ∀ (st : RecvState) (h : Header) (p : List Nat),
      st.done = false → h.sequenceNumber = 0 →
      (rrecvStep st (h, p)).output = st.output ∧
      (rrecvStep st (h, p)).acks = st.acks ++ [0] ∧
      (rrecvStep st (h, p)).latestSequenceNumber =
        st.latestSequenceNumber := by
  refine ⟨rfl, ?_⟩
  intro st h p hdone hseq
  simp [rrecvStep, hdone, hseq]

/-- C10 witness: a freshly started receiver handed a sequence-number-0
packet (even one flagged `lastPacket`) acks it and writes nothing. -/
theorem seq_zero_acked_never_written_witness :
    (rrecvStep rrecvInit (⟨0, 3, true⟩, [1, 2, 3])).output = [] ∧
    (rrecvStep rrecvInit (⟨0, 3, true⟩, [1, 2, 3])).acks = [0] ∧
    (rrecvStep rrecvInit (⟨0, 3, true⟩, [1, 2, 3])).latestSequenceNumber
      = 0 := by
  have h := seq_zero_acked_never_written.2 rrecvInit ⟨0, 3, true⟩ [1, 2, 3]
    rfl rfl
  exact ⟨h.1, h.2.1, h.2.2⟩

/-! ## Claim C5: duplicate suppression -/

/-- Delivering any number of copies of a packet that is already stale for
the receiver only appends acknowledgments; nothing is written and no
bookkeeping changes. -/
theorem rrecvRunFrom_stale_replicate (h : Header) (p : List Nat) :
    ∀ (k : Nat) (st : RecvState), st.done = false →
      h.sequenceNumber ≤ st.latestSequenceNumber →
      rrecvRunFrom st (List.replicate k (h, p)) =
        { st with acks := st.acks ++ List.replicate k h.sequenceNumber } := by
  intro k
  induction k with
  | zero => intro st hd hs; simp [rrecvRunFrom_nil]
  | succ k ih =>
      intro st hd hs
      rw [List.replicate_succ, rrecvRunFrom_cons, rrecvStep_stale st h p hd hs,
        ih { st with acks := st.acks ++ [h.sequenceNumber] } hd hs]
      simp [List.replicate_succ, List.append_assoc]

/-- C5 counterexample: a data packet with sequence number 0 delivered twice
to a fresh receiver is written zero times, not exactly once (its sequence
number is never above the high-water mark, which starts at 0), even though
each delivery produces a data-ack for 0. -/
theorem duplicate_seq_zero_written_zero_times :
    (rrecvRun [(⟨0, 1, false⟩, [42]), (⟨0, 1, false⟩, [42])]).output = [] ∧
    (rrecvRun [(⟨0, 1, false⟩, [42]), (⟨0, 1, false⟩, [42])]).acks = [0, 0] ∧
    ([] : List Nat) ≠ [42] := by
  decide

/-- C5 (amended): a non-final data packet whose sequence number exceeds the
receiver's current high-water mark, delivered two or more times while the
receiver is still running, has its payload written exactly once, and every
delivery — the original and each duplicate — produces a data-ack carrying
its sequence number (the ack is sent before the duplicate check,
receiver.c:266). -/
theorem fresh_packet_duplicates_written_once (st : RecvState) (h : Header)
    (p : List Nat) (k : Nat) (hd : st.done = false)
    (hseq : st.latestSequenceNumber < h.sequenceNumber)
    (hlast : h.lastPacket = false) :
    (rrecvRunFrom st (List.replicate (k + 2) (h, p))).output =
      st.output ++ p.take h.messageLength ∧
    (rrecvRunFrom st (List.replicate (k + 2) (h, p))).acks =
      st.acks ++ List.replicate (k + 2) h.sequenceNumber := by
  have hstep : rrecvStep st (h, p) =
      { latestSequenceNumber := h.sequenceNumber,
        output := st.output ++ p.take h.messageLength,
        acks := st.acks ++ [h.sequenceNumber], done := false } := by
    rw [rrecvStep_fresh st h p hd hseq, hlast]
    simp
  have hstale : rrecvStep
      { latestSequenceNumber := h.sequenceNumber,
        output := st.output ++ p.take h.messageLength,
        acks := st.acks ++ [h.sequenceNumber], done := false } (h, p) =
      { latestSequenceNumber := h.sequenceNumber,
        output := st.output ++ p.take h.messageLength,
        acks := (st.acks ++ [h.sequenceNumber]) ++ [h.sequenceNumber],
        done := false } :=
    rrecvStep_stale _ h p rfl (le_refl _)
  have hrep := rrecvRunFrom_stale_replicate h p k
      { latestSequenceNumber := h.sequenceNumber,
        output := st.output ++ p.take h.messageLength,
        acks := (st.acks ++ [h.sequenceNumber]) ++ [h.sequenceNumber],
        done := false } rfl (le_refl _)
  have hk : k + 2 = k + 1 + 1 := rfl
  rw [hk, List.replicate_succ, rrecvRunFrom_cons, hstep, List.replicate_succ,
    rrecvRunFrom_cons, hstale, hrep]
  constructor
  · rfl
  · simp [List.replicate_succ, List.append_assoc]

/-- C5 witness: a fresh packet with sequence number 1 delivered twice to a
fresh receiver is written once and acked twice. -/
theorem fresh_packet_duplicates_written_once_witness :
    (rrecvRunFrom rrecvInit
        (List.replicate 2 (⟨1, 1, false⟩, [42]))).output = [42] ∧
    (rrecvRunFrom rrecvInit
        (List.replicate 2 (⟨1, 1, false⟩, [42]))).acks = [1, 1] := by
  have h := fresh_packet_duplicates_written_once rrecvInit ⟨1, 1, false⟩
    [42] 0 rfl (by decide) rfl
  exact ⟨h.1, h.2⟩

/-! ## Claim C3: exactly one lastPacket -/

/-- When the remaining byte target is a multiple of `MAX_BUFFER_SIZE`, the
condition `totalBytesSent + MAX_BUFFER_SIZE > bytesToTransfer`
(sender.c:316) is false on every iteration, so no packet is ever flagged
`lastPacket`. -/
theorem senderLoop_no_lastPacket :
    ∀ (fuel : Nat) (rest : List Nat) (remaining seq : Nat) (buf : List Nat),
      remaining % MAX_BUFFER_SIZE = 0 →
      ∀ pr ∈ senderLoop fuel rest remaining seq buf,
        pr.1.lastPacket = false := by
  intro fuel
  induction fuel with
  | zero =>
      intro rest remaining seq buf hrem pr hpr
      simp [senderLoop] at hpr
  | succ fuel ih =>
      intro rest remaining seq buf hrem pr hpr
      by_cases h0 : remaining = 0
      · rw [h0, senderLoop_zero_remaining] at hpr
        simp at hpr
      · have hM : MAX_BUFFER_SIZE = 8192 := rfl
        rw [hM] at hrem
        simp only [senderLoop, if_neg h0] at hpr
        rcases List.mem_cons.mp hpr with heq | hmem
        · rw [heq]
          simp only [decide_eq_false_iff_not]
          rw [hM]
          omega
        · exact ih (rest.drop MAX_BUFFER_SIZE) (remaining - MAX_BUFFER_SIZE)
            (seq + 1) _ (by rw [hM]; omega) pr hmem

/-- C3: for a transfer target that is a positive exact multiple of the
maximum payload size 8192 (with a source at least that long), the sender
emits **no** packet flagged `lastPacket` at all — contradicting the claim
that exactly one such packet is sent — so the receiver, which stops only
after writing a `lastPacket`, is never released from its loop. -/
theorem exact_multiple_target_no_lastPacket (file : List Nat)
    (t seq0 : Nat) (buf0 : List Nat) (hmult : t % MAX_BUFFER_SIZE = 0)
    (hlen : t ≤ file.length) :
    ∀ pr ∈ rsendPackets file t seq0 buf0, pr.1.lastPacket = false := by
  intro pr hpr
  unfold rsendPackets at hpr
  rw [min_eq_left hlen] at hpr
  exact senderLoop_no_lastPacket t file t seq0 buf0 hmult pr hpr

/-- Indexing a nonempty list at 0 with a default yields a member. -/
theorem getD_zero_mem {α : Type} (l : List α) (d : α) (hne : l ≠ []) :
    l.getD 0 d ∈ l := by
  cases l with
  | nil => exact absurd rfl hne
  | cons a t => simp

/-- C3 witness: for an 8192-byte transfer of an 8192-byte source, the one
packet the sender emits is not flagged `lastPacket`. -/
theorem exact_multiple_target_no_lastPacket_witness :
    ((rsendPackets (List.replicate 8192 0) 8192 1 []).getD 0
        defaultPacket).1.lastPacket = false := by
  have hne : rsendPackets (List.replicate 8192 0) 8192 1 [] ≠ [] := by
    unfold rsendPackets
    rw [List.length_replicate, min_self]
    show senderLoop (8191 + 1) (List.replicate 8192 0) 8192 1 [] ≠ []
    rw [senderLoop, if_neg (by decide)]
    exact List.cons_ne_nil _ _
  exact exact_multiple_target_no_lastPacket (List.replicate 8192 0) 8192 1 []
    (by decide) (List.length_replicate 8192 0).ge _
    (getD_zero_mem _ defaultPacket hne)

/-! ## Claim C9: fixed datagram size, stale buffer tail -/

/-- Every datagram payload region emitted by the sender's loop has exactly
`MAX_BUFFER_SIZE` bytes, provided the send buffer starts with that length:
`sendto` always transmits `HEADER_SIZE + MAX_BUFFER_SIZE` bytes
(sender.c:328) and the `memcpy` of a chunk over the buffer's front
preserves its length. -/
theorem senderLoop_datagram_length :
    ∀ (fuel : Nat) (rest : List Nat) (remaining seq : Nat) (buf : List Nat),
      buf.length = MAX_BUFFER_SIZE →
      ∀ pr ∈ senderLoop fuel rest remaining seq buf,
        pr.2.length = MAX_BUFFER_SIZE := by
  intro fuel
  induction fuel with
  | zero =>
      intro rest remaining seq buf hbuf pr hpr
      simp [senderLoop] at hpr
  | succ fuel ih =>
      intro rest remaining seq buf hbuf pr hpr
      by_cases h0 : remaining = 0
      · rw [h0, senderLoop_zero_remaining] at hpr
        simp at hpr
      · simp only [senderLoop, if_neg h0] at hpr
        have hcl : (rest.take MAX_BUFFER_SIZE).length ≤ buf.length := by
          rw [hbuf, List.length_take]
          exact min_le_left _ _
        have hb' : (rest.take MAX_BUFFER_SIZE ++
            buf.drop (rest.take MAX_BUFFER_SIZE).length).length =
            MAX_BUFFER_SIZE := by
          rw [List.length_append, List.length_drop,
            Nat.add_sub_cancel' hcl, hbuf]
        rcases List.mem_cons.mp hpr with heq | hmem
        · rw [heq]
          exact hb'
        · exact ih (rest.drop MAX_BUFFER_SIZE) (remaining - MAX_BUFFER_SIZE)
            (seq + 1) _ hb' pr hmem

/-- In the sender's loop, the bytes of each transmitted datagram beyond its
`messageLength` are exactly the bytes that already occupied those positions
in the send buffer before the send — the stale contents (the `memcpy` at
sender.c:312 overwrites only `bytesRead` bytes).  The buffer before the
`i`-th send is the `i`-th element of the old buffer consed onto the emitted
payload regions. -/
theorem senderLoop_stale_tail :
    ∀ (fuel : Nat) (rest : List Nat) (remaining seq : Nat) (buf : List Nat)
      (i : Nat), i < (senderLoop fuel rest remaining seq buf).length →
      ((senderLoop fuel rest remaining seq buf).getD i defaultPacket).2.drop
          ((senderLoop fuel rest remaining seq buf).getD i
            defaultPacket).1.messageLength =
        ((buf :: (senderLoop fuel rest remaining seq buf).map
            Prod.snd).getD i []).drop
          ((senderLoop fuel rest remaining seq buf).getD i
            defaultPacket).1.messageLength := by
  intro fuel
  induction fuel with
  | zero =>
      intro rest remaining seq buf i hi
      simp [senderLoop] at hi
  | succ fuel ih =>
      intro rest remaining seq buf i hi
      by_cases h0 : remaining = 0
      · rw [h0, senderLoop_zero_remaining] at hi
        simp at hi
      · simp only [senderLoop, if_neg h0] at hi ⊢
        cases i with
        | zero =>
            simp only [List.getD_cons_zero, List.map_cons]
            exact List.drop_left _ _
        | succ i =>
            simp only [List.getD_cons_succ, List.map_cons]
            rw [List.length_cons] at hi
            exact ih (rest.drop MAX_BUFFER_SIZE) (remaining - MAX_BUFFER_SIZE)
              (seq + 1) _ i (Nat.lt_of_succ_lt_succ hi)

/-- C9: every datagram the sender hands to the transport has the same
fixed size `HEADER_SIZE + MAX_BUFFER_SIZE`, independent of how many valid
payload bytes (`messageLength`) it carries, and the payload bytes beyond
`messageLength` are the stale contents of the send buffer — the bytes left
there by the previous iteration (or the buffer's initial contents for the
first packet). -/
theorem fixed_datagram_size_and_stale_tail (fuel : Nat) (rest : List Nat)
    (remaining seq : Nat) (buf : List Nat)
    (hbuf : buf.length = MAX_BUFFER_SIZE) :
    (∀ pr ∈ senderLoop fuel rest remaining seq buf,
        HEADER_SIZE + pr.2.length = HEADER_SIZE + MAX_BUFFER_SIZE) ∧
    ∀ i, i < (senderLoop fuel rest remaining seq buf).length →
      ((senderLoop fuel rest remaining seq buf).getD i defaultPacket).2.drop
          ((senderLoop fuel rest remaining seq buf).getD i
            defaultPacket).1.messageLength =
        ((buf :: (senderLoop fuel rest remaining seq buf).map
            Prod.snd).getD i []).drop
          ((senderLoop fuel rest remaining seq buf).getD i
            defaultPacket).1.messageLength := by
  constructor
  · intro pr hpr
    rw [senderLoop_datagram_length fuel rest remaining seq buf hbuf pr hpr]
  · exact senderLoop_stale_tail fuel rest remaining seq buf

/-- C9 witness: a one-packet transfer (1 byte of a 1-byte target) sent
with a buffer full of the byte 3: the datagram still has the full
`HEADER_SIZE + MAX_BUFFER_SIZE` size, and its bytes beyond
`messageLength = 1` come from the pre-send buffer. -/
theorem fixed_datagram_size_and_stale_tail_witness :
    HEADER_SIZE + ((senderLoop 1 [7] 1 0
        (List.replicate MAX_BUFFER_SIZE 3)).getD 0 defaultPacket).2.length =
      HEADER_SIZE + MAX_BUFFER_SIZE ∧
    ((senderLoop 1 [7] 1 0 (List.replicate MAX_BUFFER_SIZE 3)).getD 0
        defaultPacket).2.drop
        ((senderLoop 1 [7] 1 0 (List.replicate MAX_BUFFER_SIZE 3)).getD 0
          defaultPacket).1.messageLength =
      ((List.replicate MAX_BUFFER_SIZE 3 ::
          (senderLoop 1 [7] 1 0 (List.replicate MAX_BUFFER_SIZE 3)).map
            Prod.snd).getD 0 []).drop
        ((senderLoop 1 [7] 1 0 (List.replicate MAX_BUFFER_SIZE 3)).getD 0
          defaultPacket).1.messageLength := by
  have h := fixed_datagram_size_and_stale_tail 1 [7] 1 0
    (List.replicate MAX_BUFFER_SIZE 3) (List.length_replicate _ _)
  have hne : senderLoop 1 [7] 1 0 (List.replicate MAX_BUFFER_SIZE 3) ≠ [] := by
    show senderLoop (0 + 1) [7] 1 0 (List.replicate MAX_BUFFER_SIZE 3) ≠ []
    rw [senderLoop, if_neg (by decide)]
    exact List.cons_ne_nil _ _
  exact ⟨h.1 _ (getD_zero_mem _ defaultPacket hne),
    h.2 0 (List.length_pos.mpr hne)⟩

/-! ## Claim C1: round-trip integrity -/

/-- `rrecvStep_fresh` specialized to a literal header, with the structure
projections reduced. -/
theorem rrecvStep_fresh_mk (st : RecvState) (s len : Nat) (lp : Bool)
    (p : List Nat) (hd : st.done = false)
    (hs : st.latestSequenceNumber < s) :
    rrecvStep st (⟨s, len, lp⟩, p) =
      if lp then
        { latestSequenceNumber := st.latestSequenceNumber,
          output := st.output ++ p.take len,
          acks := st.acks ++ [s], done := true }
      else
        { latestSequenceNumber := s,
          output := st.output ++ p.take len,
          acks := st.acks ++ [s], done := false } :=
  rrecvStep_fresh st ⟨s, len, lp⟩ p hd hs

/-- Loop invariant for a loss-free run of the sender against the receiver:
starting from a receiver state that is still running and whose high-water
mark is below the sender's next sequence number, and provided the sequence
numbers do not wrap (`seq` plus the number of remaining packets stays below
`UINT32_MOD`), the receiver appends to its output exactly the first
`MAX_BUFFER_SIZE * ⌈remaining / MAX_BUFFER_SIZE⌉` bytes of the unread part
of the file — the chunks are capped by the file, not by the remaining
transfer target. -/
theorem senderLoop_rrecv_output :
    ∀ (fuel : Nat) (rest : List Nat) (remaining seq : Nat) (buf : List Nat)
      (st : RecvState),
      remaining ≤ fuel →
      remaining ≤ rest.length →
      st.done = false →
      st.latestSequenceNumber < seq →
      seq + (remaining + (MAX_BUFFER_SIZE - 1)) / MAX_BUFFER_SIZE ≤
        UINT32_MOD →
      (rrecvRunFrom st (senderLoop fuel rest remaining seq buf)).output =
        st.output ++ rest.take (MAX_BUFFER_SIZE *
          ((remaining + (MAX_BUFFER_SIZE - 1)) / MAX_BUFFER_SIZE)) := by
  intro fuel
  induction fuel with
  | zero =>
      intro rest remaining seq buf st hfuel hrest hdone hseq hwrap
      have h0 : remaining = 0 := Nat.le_zero.mp hfuel
      subst h0
      rw [senderLoop_zero_remaining, rrecvRunFrom_nil]
      have hc : (0 + (MAX_BUFFER_SIZE - 1)) / MAX_BUFFER_SIZE = 0 := by decide
      rw [hc, Nat.mul_zero, List.take_zero, List.append_nil]
  | succ fuel ih =>
      intro rest remaining seq buf st hfuel hrest hdone hseq hwrap
      by_cases h0 : remaining = 0
      · subst h0
        rw [senderLoop_zero_remaining, rrecvRunFrom_nil]
        have hc : (0 + (MAX_BUFFER_SIZE - 1)) / MAX_BUFFER_SIZE = 0 := by
          decide
        rw [hc, Nat.mul_zero, List.take_zero, List.append_nil]
      · have hM : MAX_BUFFER_SIZE = 8192 := rfl
        have hU : UINT32_MOD = 4294967296 := rfl
        simp only [senderLoop, if_neg h0]
        rw [rrecvRunFrom_cons]
        simp only [hM, hU] at hrest hwrap ⊢
        have hceil1 : 1 ≤ (remaining + (8192 - 1)) / 8192 := by omega
        have hseqlt : seq < 4294967296 := by omega
        rw [Nat.mod_eq_of_lt hseqlt]
        by_cases hrem : remaining < 8192
        · -- final packet: flagged lastPacket, the loop then ends
          have hdec : decide (remaining < 8192) = true := decide_eq_true hrem
          rw [hdec, rrecvStep_fresh_mk st seq _ _ _ hdone hseq, if_pos rfl]
          have hz : remaining - 8192 = 0 := by omega
          rw [hz, senderLoop_zero_remaining, rrecvRunFrom_nil]
          have hone : (remaining + (8192 - 1)) / 8192 = 1 := by omega
          rw [hone, Nat.mul_one, List.take_left' rfl]
        · -- a full packet: the receiver writes it and advances
          have hdec : decide (remaining < 8192) = false :=
            decide_eq_false hrem
          rw [hdec, rrecvStep_fresh_mk st seq _ _ _ hdone hseq,
            if_neg (by simp)]
          rw [List.take_left' rfl]
          have hsplit : (remaining + (8192 - 1)) / 8192 =
              ((remaining - 8192) + (8192 - 1)) / 8192 + 1 := by omega
          rw [ih (rest.drop 8192) (remaining - 8192) (seq + 1)
            (rest.take 8192 ++ buf.drop (rest.take 8192).length)
            { latestSequenceNumber := seq,
              output := st.output ++ rest.take 8192,
              acks := st.acks ++ [seq], done := false }
            (by omega)
            (by rw [List.length_drop]; omega)
            rfl
            (Nat.lt_succ_self seq)
            (by rw [hM, hU]; omega)]
          simp only [hM]
          rw [hsplit, Nat.mul_succ,
            Nat.add_comm (8192 * ((remaining - 8192 + (8192 - 1)) / 8192))
              8192,
            List.take_add]
          simp [List.append_assoc]

/-- C1 counterexample: source `[10, 20]` (length 2), transfer target 1,
initial sequence number 1, loss-free network.  The claim demands the
receiver write the first `min(2, 1) = 1` byte, `[10]`; the code writes
`[10, 20]`, because `fread` fills the chunk up to the file size with no cap
at the remaining target (sender.c:305) and `messageLength` is set to the
full chunk (sender.c:315). -/
theorem roundtrip_not_first_min_bytes :
    (rrecvRun (rsendPackets [10, 20] 1 1
        (List.replicate MAX_BUFFER_SIZE 0))).output ≠
      List.take (min 2 1) [10, 20] := by
  decide

/-- C1 (amended): on a loss-free, in-order run with target `t ≤ L` (the
source length), a positive initial sequence number, and no sequence-number
wrap-around, the receiver's output equals the first
`min(L, MAX_BUFFER_SIZE * ⌈t / MAX_BUFFER_SIZE⌉)` bytes of the source (the
`min` is implicit in `List.take`) — the first `min(L, t)` bytes only when
`t` is a multiple of `MAX_BUFFER_SIZE` or `t = L`. -/
theorem rsend_rrecv_roundtrip (file : List Nat) (t seq0 : Nat)
    (buf0 : List Nat) (ht : t ≤ file.length) (hseq : 1 ≤ seq0)
    (hwrap : seq0 + (t + (MAX_BUFFER_SIZE - 1)) / MAX_BUFFER_SIZE ≤
      UINT32_MOD) :
    (rrecvRun (rsendPackets file t seq0 buf0)).output =
      file.take (MAX_BUFFER_SIZE *
        ((t + (MAX_BUFFER_SIZE - 1)) / MAX_BUFFER_SIZE)) := by
  unfold rrecvRun rsendPackets
  rw [min_eq_left ht]
  have h := senderLoop_rrecv_output t file t seq0 buf0 rrecvInit le_rfl ht
    rfl hseq hwrap
  rw [h]
  rfl

/-- C1 witness: source `[10, 20]`, target 2 (= L), initial sequence
number 1: the receiver's output is `take (8192 * 1) [10, 20] = [10, 20]`. -/
theorem rsend_rrecv_roundtrip_witness :
    (rrecvRun (rsendPackets [10, 20] 2 1
        (List.replicate MAX_BUFFER_SIZE 0))).output =
      List.take (MAX_BUFFER_SIZE *
        ((2 + (MAX_BUFFER_SIZE - 1)) / MAX_BUFFER_SIZE)) [10, 20] :=
  rsend_rrecv_roundtrip [10, 20] 2 1 (List.replicate MAX_BUFFER_SIZE 0)
    (by decide) (by decide) (by decide)

end TcpOverUdp
